import Mathlib

/-!
Verification development for the English-exam trainer ("EL") repository.

The repository bundles a frontend gateway (`services/geminiService.ts`), a
serverless backend, a shared `types.ts`, and two variants of the application
component `App`.  Both variants contain a `TestPaperView.handleSubmit` grading
pipeline, a `GrammarSection` renderer and the `handleVocabStart` /
`handleTestStart` session handlers; the first variant's `TestPaperView` also
contains the `playAudio` base64 PCM decoder.  All definitions below are
transcribed from that source.  JavaScript strings are modelled by `String`,
`undefined`-able values by `Option`, JavaScript numbers holding integers by
`Int`, and the asynchronous gateway by explicit outcome parameters.
-/

namespace EL

/-- `types.ts`: the `QuestionType` union
`multiple_choice | boolean | fill_in_blank | writing`. -/
inductive QuestionType where
  | multiple_choice
  | boolean
  | fill_in_blank
  | writing
deriving DecidableEq, Repr

/-- `types.ts`: `Question` (field `userAnswer` is unused by the code paths
modelled here but kept for shape fidelity). -/
structure Question where
  id : String
  type : QuestionType
  prompt : String
  options : Option (List String)
  correctAnswer : Option String
  explanation : Option String
  userAnswer : Option String
  maxScore : Int
deriving DecidableEq, Repr

/-- `types.ts`: `TestSection`.  The section `type` union is kept as a string;
grading never inspects it. -/
structure TestSection where
  id : String
  title : String
  type : String
  readingPassage : Option String
  questions : List Question
deriving DecidableEq, Repr

/-- `types.ts`: `TestPaperData`. -/
structure TestPaperData where
  id : String
  title : String
  listeningScript : Option String
  listeningAudioBase64 : Option String
  sections : List TestSection
deriving DecidableEq, Repr

/-- `types.ts`: `WritingFeedback`. -/
structure WritingFeedback where
  score : Int
  feedback : String
  improvedVersion : String
deriving DecidableEq, Repr

/-- Outcome of one `gradeWriting` gateway call: the frontend wrapper either
resolves with a `WritingFeedback` or rejects (network / non-2xx error). -/
inductive GradeOutcome where
  | success (fb : WritingFeedback)
  | failure
deriving DecidableEq, Repr

/-- All questions of a paper in document order (outer loop over
`paper.sections`, inner loop over `section.questions`). -/
def questionsOf (paper : TestPaperData) : List Question :=
  (paper.sections.map (fun s => s.questions)).flatten

/-- Sum of every question's `maxScore` over the whole paper (the spec-side
description of `maxTotalScore`). -/
def sumMaxScores (paper : TestPaperData) : Int :=
  ((questionsOf paper).map (fun q => q.maxScore)).sum

/-- First variant, line `q.type === 'multiple_choice' || q.type === 'boolean'
|| q.type === 'fill_in_blank'`. -/
def isObjective (t : QuestionType) : Bool :=
  t == .multiple_choice || t == .boolean || t == .fill_in_blank

/-- Model of JS `String.prototype.trim`: drop whitespace from both ends
(ASCII whitespace; JS also trims further Unicode space characters, which no
code path here produces). -/
def jsTrim (s : String) : String :=
  String.mk
    (((s.data.dropWhile Char.isWhitespace).reverse.dropWhile
        Char.isWhitespace).reverse)

/-- Model of JS `String.prototype.toLowerCase` (ASCII case mapping). -/
def jsLower (s : String) : String :=
  String.mk (s.data.map Char.toLower)

/-- `s.trim().toLowerCase()` as applied to answers by the first variant. -/
def normAns (s : String) : String := jsLower (jsTrim s)

/-- First variant, the objective-question test
`q.correctAnswer && answers[q.id]?.trim().toLowerCase() ===
q.correctAnswer.trim().toLowerCase()`: the guard `q.correctAnswer` is a JS
truthiness test, so an absent or empty `correctAnswer` short-circuits to
`false`; an absent answer compares as `undefined` and fails the `===`. -/
def objectiveMatch1 (ans : Option String) (ca : Option String) : Bool :=
  match ca with
  | some c =>
      decide (c ≠ "") &&
        (match ans with
         | some a => normAns a == normAns c
         | none => false)
  | none => false

/-- Accumulated state of the first variant's `handleSubmit` loop:
`totalScore`, `maxTotalScore`, the `newWritingFeedback` record (insertion
order) and, as observational instrumentation, the list of issued
`gradeWriting` calls as (question id, student answer sent) pairs. -/
structure Grade1Result where
  total : Int
  maxTotal : Int
  feedback : List (String × WritingFeedback)
  calls : List (String × String)
deriving DecidableEq, Repr

/-- First variant `handleSubmit`, body of the per-question loop.  `env i` is
the outcome of the `i`-th `gradeWriting` call of the submission (the calls are
issued sequentially, so the index is the number of calls made so far). -/
def gradeQ1 (env : Nat → GradeOutcome) (answers : String → Option String)
    (acc : Grade1Result) (q : Question) : Grade1Result :=
  let acc := { acc with maxTotal := acc.maxTotal + q.maxScore }
  if isObjective q.type then
    if objectiveMatch1 (answers q.id) q.correctAnswer then
      { acc with total := acc.total + q.maxScore }
    else acc
  else if q.type == .writing then
    let userAnswer := (answers q.id).getD ""
    if userAnswer ≠ "" then
      match env acc.calls.length with
      | .success fb =>
          { acc with
            total := acc.total + fb.score
            feedback := acc.feedback ++ [(q.id, fb)]
            calls := acc.calls ++ [(q.id, userAnswer)] }
      | .failure =>
          { acc with calls := acc.calls ++ [(q.id, userAnswer)] }
    else acc
  else acc

/-- First variant `TestPaperView.handleSubmit`: fold the loop body over all
questions in document order starting from zeroed accumulators. -/
def gradeSubmit1 (paper : TestPaperData) (answers : String → Option String)
    (env : Nat → GradeOutcome) : Grade1Result :=
  (questionsOf paper).foldl (gradeQ1 env answers) ⟨0, 0, [], []⟩

/-- Accumulated state of the second variant's `handleSubmit` loop, with the
per-section score record and the same call instrumentation. -/
structure Grade2State where
  total : Int
  maxTotal : Int
  sectionScores : List (String × Int)
  feedback : List (String × WritingFeedback)
  calls : List (String × String)
deriving DecidableEq, Repr

/-- Second variant: the answer string sent to the grader,
`userAns || "No answer provided."` (empty strings are falsy). -/
def sentAnswer : Option String → String
  | some a => if a ≠ "" then a else "No answer provided."
  | none => "No answer provided."

/-- Second variant `handleSubmit`, body of the per-question loop.  A writing
question always issues a `gradeWriting` call, sending `sentAnswer userAns`;
the call is not wrapped in try/catch, so a failing call throws out of the
loop (modelled by `Except.error` carrying the state reached so far,
`maxTotalScore` increment and issued call included).  A non-writing question
is graded by the raw `userAns === q.correctAnswer` comparison, `undefined`
included on either side. -/
def gradeQ2 (env : Nat → GradeOutcome) (answers : String → Option String)
    (st : Grade2State) (sectionScore : Int) (q : Question) :
    Except Grade2State (Grade2State × Int) :=
  let st := { st with maxTotal := st.maxTotal + q.maxScore }
  let userAns := answers q.id
  if q.type == .writing then
    let sent := sentAnswer userAns
    match env st.calls.length with
    | .success fb =>
        .ok ({ st with
                total := st.total + fb.score
                feedback := st.feedback ++ [(q.id, fb)]
                calls := st.calls ++ [(q.id, sent)] },
             sectionScore + fb.score)
    | .failure =>
        .error { st with calls := st.calls ++ [(q.id, sent)] }
  else
    if userAns == q.correctAnswer then
      .ok ({ st with total := st.total + q.maxScore }, sectionScore + q.maxScore)
    else
      .ok (st, sectionScore)

/-- Second variant: inner loop over one section's questions, threading the
running `sectionScore`. -/
def foldQ2 (env : Nat → GradeOutcome) (answers : String → Option String) :
    Grade2State → Int → List Question → Except Grade2State (Grade2State × Int)
  | st, ss, [] => .ok (st, ss)
  | st, ss, q :: rest =>
      match gradeQ2 env answers st ss q with
      | .ok (st', ss') => foldQ2 env answers st' ss' rest
      | .error e => .error e

/-- Second variant: outer loop over sections; after each section the section
score is recorded under `section.id`. -/
def foldSec2 (env : Nat → GradeOutcome) (answers : String → Option String) :
    Grade2State → List TestSection → Except Grade2State Grade2State
  | st, [] => .ok st
  | st, sec :: rest =>
      match foldQ2 env answers st 0 sec.questions with
      | .ok (st', ss) =>
          foldSec2 env answers
            { st' with sectionScores := st'.sectionScores ++ [(sec.id, ss)] } rest
      | .error e => .error e

/-- Second variant's whole grading fold from zeroed accumulators.  An
`Except.error` is the exception escaping `handleSubmit`: no result is set and
the submitted state is never reached. -/
def runGrade2 (paper : TestPaperData) (answers : String → Option String)
    (env : Nat → GradeOutcome) : Except Grade2State Grade2State :=
  foldSec2 env answers ⟨0, 0, [], [], []⟩ paper.sections

/-- `types.ts`: `TestResult`, assembled by the second variant on successful
completion of the grading loop. -/
structure TestResult where
  paperId : String
  totalScore : Int
  maxTotalScore : Int
  sectionScores : List (String × Int)
  writingFeedback : List (String × WritingFeedback)
  answers : String → Option String

/-- Second variant `TestPaperView.handleSubmit`: run the grading loops and,
when no essay-grading call threw, assemble the `TestResult`. -/
def gradeSubmit2 (paper : TestPaperData) (answers : String → Option String)
    (env : Nat → GradeOutcome) : Except Grade2State TestResult :=
  (runGrade2 paper answers env).map fun st =>
    { paperId := paper.id
      totalScore := st.total
      maxTotalScore := st.maxTotal
      sectionScores := st.sectionScores
      writingFeedback := st.feedback
      answers := answers }

/-- `types.ts`: `AppMode`. -/
inductive AppMode where
  | Setup
  | Dashboard
  | VocabPractice
  | TestPaper
  | TestResult
deriving DecidableEq, Repr

/-- `types.ts`: `TextbookConfig` (the enum payloads are opaque strings here). -/
structure TextbookConfig where
  publisher : String
  grade : String
  term : String
deriving DecidableEq, Repr

/-- `types.ts`: `VocabItem` (the source field `example` is renamed
`exampleSentence` because `example` is a Lean keyword). -/
structure VocabItem where
  id : String
  english : String
  chinese : String
  partOfSpeech : String
  exampleSentence : String
deriving DecidableEq, Repr

/-- `types.ts`: `GrammarBlank`. -/
structure GrammarBlank where
  id : Nat
  hint : String
  answer : String
  explanation : String
deriving DecidableEq, Repr

/-- `types.ts`: `GrammarPracticeData`. -/
structure GrammarPracticeData where
  title : String
  story : String
  blanks : List GrammarBlank
deriving DecidableEq, Repr

/-- `types.ts`: `PracticeSessionData`. -/
structure PracticeSessionData where
  vocab : List VocabItem
  grammar : GrammarPracticeData
deriving DecidableEq, Repr

/-- The `App` component's session-relevant state: `mode`, `config`,
`practiceData`, `testPaper`. -/
structure AppState where
  mode : AppMode
  config : Option TextbookConfig
  practiceData : Option PracticeSessionData
  testPaper : Option TestPaperData
deriving DecidableEq, Repr

/-- `App.handleVocabStart` (identical control flow in both variants): bail out
without a config; on gateway success store the practice data and move to
`VocabPractice`; on failure only an alert is shown and the state is left as
it was. -/
def handleVocabStart (st : AppState) (res : Except Unit PracticeSessionData) :
    AppState :=
  match st.config with
  | none => st
  | some _ =>
      match res with
      | .ok data => { st with practiceData := some data, mode := .VocabPractice }
      | .error _ => st

/-- JS truthiness of an optional string (`undefined`, `null` and `""` are
falsy). -/
def truthyStr : Option String → Bool
  | some s => s ≠ ""
  | none => false

/-- `App.handleTestStart` (identical control flow in both variants): bail out
without a config; on `generateTestPaper` failure leave the state unchanged;
on success, when the paper carries a truthy `listeningScript`, attempt
`generateSpeech` and attach the audio on success while swallowing a failure,
then store the paper and move to `TestPaper` either way. -/
def handleTestStart (st : AppState) (paperRes : Except Unit TestPaperData)
    (speechRes : Except Unit String) : AppState :=
  match st.config with
  | none => st
  | some _ =>
      match paperRes with
      | .error _ => st
      | .ok paper =>
          let paper :=
            if truthyStr paper.listeningScript then
              match speechRes with
              | .ok audioBase64 => { paper with listeningAudioBase64 := some audioBase64 }
              | .error _ => paper
            else paper
          { st with testPaper := some paper, mode := .TestPaper }

/-!
### Audio decode pipeline (first variant `TestPaperView.playAudio`)

The code runs `atob` on `paper.listeningAudioBase64`, packs the character
codes into a `Uint8Array`, reinterprets the buffer as a little-endian
`Int16Array`, and divides every 16-bit sample by `32768.0` into a
`Float32Array`, then builds a 1-channel, 24000 Hz audio buffer.  Bytes are
modelled as `Nat < 256`; samples as `ℚ` (exact, since an `int16 / 32768`
value has at most 15 significand bits and is represented exactly even in
`float32`).  `atob` — a platform builtin, not repository code — is modelled
as a standard strict base64 decoder.
-/

/-- Value of a base64 alphabet character, `none` for anything else
(`=` included). -/
def b64index (c : Char) : Option Nat :=
  if 65 ≤ c.toNat ∧ c.toNat ≤ 90 then some (c.toNat - 65)
  else if 97 ≤ c.toNat ∧ c.toNat ≤ 122 then some (c.toNat - 97 + 26)
  else if 48 ≤ c.toNat ∧ c.toNat ≤ 57 then some (c.toNat - 48 + 52)
  else if c.toNat = 43 then some 62
  else if c.toNat = 47 then some 63
  else none

/-- Base64 alphabet character for a sextet value. -/
def b64char (n : Nat) : Char :=
  if n < 26 then Char.ofNat (65 + n)
  else if n < 52 then Char.ofNat (97 + (n - 26))
  else if n < 62 then Char.ofNat (48 + (n - 52))
  else if n = 62 then Char.ofNat 43
  else Char.ofNat 47

/-- Model of the platform `atob`: decode a padded base64 character stream to
bytes, four characters at a time, failing on anything malformed. -/
def atobM : List Char → Option (List Nat)
  | [] => some []
  | c1 :: c2 :: c3 :: c4 :: rest =>
      match b64index c1, b64index c2 with
      | some s1, some s2 =>
          if rest.isEmpty ∧ c3 = '=' ∧ c4 = '=' then
            some [s1 * 4 + s2 / 16]
          else
            match b64index c3 with
            | some s3 =>
                if rest.isEmpty ∧ c4 = '=' then
                  some [s1 * 4 + s2 / 16, s2 % 16 * 16 + s3 / 4]
                else
                  match b64index c4, atobM rest with
                  | some s4, some tail =>
                      some ((s1 * 4 + s2 / 16) :: (s2 % 16 * 16 + s3 / 4) ::
                            (s3 % 4 * 64 + s4) :: tail)
                  | _, _ => none
            | none => none
      | _, _ => none
  | _ => none

/-- Standard padded base64 encoding of a byte list (the encoding direction of
the spec's round-trip property; the repository itself only decodes). -/
def btoaM : List Nat → List Char
  | [] => []
  | [a] => [b64char (a / 4), b64char (a % 4 * 16), '=', '=']
  | [a, b] => [b64char (a / 4), b64char (a % 4 * 16 + b / 16), b64char (b % 16 * 4), '=']
  | a :: b :: c :: rest =>
      b64char (a / 4) :: b64char (a % 4 * 16 + b / 16) ::
      b64char (b % 16 * 4 + c / 64) :: b64char (c % 64) :: btoaM rest

/-- The `Int16Array` reinterpretation of one little-endian byte pair:
`lo + 256 * hi` read as a signed 16-bit integer. -/
def toInt16 (lo hi : Nat) : Int :=
  if lo + 256 * hi < 32768 then ((lo + 256 * hi : Nat) : Int)
  else ((lo + 256 * hi : Nat) : Int) - 65536

/-- The per-sample loop `float32Data[i] = dataInt16[i] / 32768.0` over the
consecutive little-endian byte pairs of the decoded buffer. -/
def decodePcm : List Nat → List ℚ
  | lo :: hi :: rest => ((toInt16 lo hi : ℚ) / 32768) :: decodePcm rest
  | _ => []

/-- The decoded playback buffer: samples plus the constants hard-coded at
`new AudioContext({sampleRate: 24000})` / `createBuffer(1, len, 24000)`. -/
structure DecodedPcm where
  samples : List ℚ
  sampleRate : Nat
  channels : Nat
deriving DecidableEq, Repr

/-- `playAudio`'s decode step on the raw bytes: an odd byte count makes the
`Int16Array` construction throw (caught by the surrounding try/catch), an
even one yields the 24 kHz mono sample buffer. -/
def playDecode (bytes : List Nat) : Option DecodedPcm :=
  if bytes.length % 2 = 0 then some ⟨decodePcm bytes, 24000, 1⟩ else none

/-- Little-endian 16-bit two's-complement encoding of a sample list (the
encoding direction of the spec's round-trip property). -/
def pcm16le : List Int → List Nat
  | [] => []
  | s :: rest =>
      (s % 65536).toNat % 256 :: (s % 65536).toNat / 256 :: pcm16le rest

/-!
### Grammar passage rendering (`GrammarSection`, both variants)

Both variants split `data.story` on the regex for double-brace placeholders
(capturing group kept, so the matched placeholders appear as segments), then
render each segment: a segment matching the placeholder regex becomes an
input bound to the blank whose `id` equals the parsed digits; when no such
blank exists the first variant renders a red `[Error]` marker while the
second returns `null` (nothing rendered).
-/

/-- The opening brace character (written by code to keep braces out of
string literals). -/
def lbrace : Char := Char.ofNat 123

/-- The closing brace character. -/
def rbrace : Char := Char.ofNat 125

/-- First match of the placeholder regex (two opening braces, one or more
digits, two closing braces) in a character list: returns
(text before the match, the captured digits, text after the match).  The
scan advances one character at a time exactly as regex search does; a
maximal digit run not followed by two closing braces cannot backtrack into a
match, since a digit is never a closing brace. -/
def findMatchAux : List Char → Option (List Char × List Char × List Char)
  | [] => none
  | c :: rest =>
      let skip :=
        (findMatchAux rest).map (fun r => (c :: r.1, r.2.1, r.2.2))
      if c = lbrace then
        match rest with
        | c2 :: rest2 =>
            if c2 = lbrace then
              let ds := rest2.takeWhile Char.isDigit
              let rest3 := rest2.dropWhile Char.isDigit
              match rest3 with
              | d1 :: d2 :: rest4 =>
                  if ds ≠ [] ∧ d1 = rbrace ∧ d2 = rbrace then
                    some ([], ds, rest4)
                  else skip
              | _ => skip
            else skip
        | [] => skip
      else skip

/-- `parseInt` on a captured digit string. -/
def digitsToNat (ds : List Char) : Nat :=
  ds.foldl (fun n c => n * 10 + (c.toNat - 48)) 0

/-- `story.split` on the placeholder regex with its capturing group: the
matched placeholders are kept as their own segments, and a trailing empty
segment appears when the story ends with a placeholder (JS `split`
behaviour).  Structural recursion via fuel; `splitStory` supplies fuel
sufficient for any input. -/
def splitStoryGo : Nat → List Char → List (List Char)
  | 0, s => [s]
  | fuel + 1, s =>
      match findMatchAux s with
      | none => [s]
      | some (before, ds, after) =>
          before :: (lbrace :: lbrace :: ds ++ [rbrace, rbrace]) ::
            splitStoryGo fuel after

/-- Split a story string into text and placeholder segments. -/
def splitStory (s : String) : List (List Char) :=
  splitStoryGo s.data.length s.data

/-- Rendered output for one segment. -/
inductive RenderPiece where
  | text (s : String)
  | inputBlank (id : Nat)
  | errorMarker
deriving DecidableEq, Repr

/-- First variant `GrammarSection`: a segment matching the placeholder regex
with a blank of matching id renders an input; with no matching blank it
renders the red `[Error]` marker; any other segment renders as text. -/
def renderSeg1 (blanks : List GrammarBlank) (seg : List Char) : RenderPiece :=
  match findMatchAux seg with
  | some (_, ds, _) =>
      let id := digitsToNat ds
      match blanks.find? (fun b => b.id == id) with
      | some _ => .inputBlank id
      | none => .errorMarker
  | none => .text (String.mk seg)

/-- Second variant `GrammarSection`: identical, except that a placeholder
segment with no matching blank returns `null`, rendering nothing. -/
def renderSeg2 (blanks : List GrammarBlank) (seg : List Char) :
    Option RenderPiece :=
  match findMatchAux seg with
  | some (_, ds, _) =>
      let id := digitsToNat ds
      match blanks.find? (fun b => b.id == id) with
      | some _ => some (.inputBlank id)
      | none => none
  | none => some (.text (String.mk seg))

/-- First variant: render the whole passage. -/
def renderGrammar1 (data : GrammarPracticeData) : List RenderPiece :=
  (splitStory data.story).map (renderSeg1 data.blanks)

/-- Second variant: render the whole passage; `null` children render
nothing, so the visible output is the filtered map. -/
def renderGrammar2 (data : GrammarPracticeData) : List RenderPiece :=
  (splitStory data.story).filterMap (renderSeg2 data.blanks)

/-!
### Spec-side helper functions

Closed forms used to characterize the grading folds in the claim theorems.
-/

/-- Score an objective question contributes in the first variant:
`maxScore` on a truthy-`correctAnswer`, trimmed, case-insensitive match,
otherwise 0. -/
def objContrib (answers : String → Option String) (q : Question) : Int :=
  if isObjective q.type && objectiveMatch1 (answers q.id) q.correctAnswer then
    q.maxScore
  else 0

/-- Sum of the first variant's objective contributions over a question list. -/
def objTotal (answers : String → Option String) (qs : List Question) : Int :=
  (qs.map (objContrib answers)).sum

/-- A writing question for which the user supplied a non-empty answer (the
first variant issues a `gradeWriting` call exactly for these). -/
def isAnsweredWriting (answers : String → Option String) (q : Question) : Bool :=
  q.type == .writing && ((answers q.id).getD "" != "")

/-- The answered writing questions of a paper, in document order. -/
def writingQs (paper : TestPaperData) (answers : String → Option String) :
    List Question :=
  (questionsOf paper).filter (isAnsweredWriting answers)

/-- All writing questions of a paper, in document order. -/
def writingOnly (paper : TestPaperData) : List Question :=
  (questionsOf paper).filter (fun q => q.type == .writing)

/-- Score returned by the `i`-th `gradeWriting` call, 0 on failure. -/
def envScore (env : Nat → GradeOutcome) (i : Nat) : Int :=
  match env i with
  | .success fb => fb.score
  | .failure => 0

/-- Total writing score collected by calls `n, n+1, …` over a list of
writing questions. -/
def scoreSum (env : Nat → GradeOutcome) : Nat → List Question → Int
  | _, [] => 0
  | n, _ :: rest => envScore env n + scoreSum env (n + 1) rest

/-- Feedback entries collected by calls `n, n+1, …` over a list of writing
questions: one entry per successful call, none for a failed one. -/
def fbListFrom (env : Nat → GradeOutcome) :
    Nat → List Question → List (String × WritingFeedback)
  | _, [] => []
  | n, q :: rest =>
      match env n with
      | .success fb => (q.id, fb) :: fbListFrom env (n + 1) rest
      | .failure => fbListFrom env (n + 1) rest

/-- The (question id, answer sent) log of the first variant's `gradeWriting`
calls over a list of answered writing questions. -/
def callsOf (answers : String → Option String) (qs : List Question) :
    List (String × String) :=
  qs.map (fun q => (q.id, (answers q.id).getD ""))

/-!
### Concrete fixtures used by counterexamples and witnesses
-/

/-- Environment whose every `gradeWriting` call succeeds with score 7. -/
def envOk7 : Nat → GradeOutcome := fun _ => .success ⟨7, "good", "better"⟩

/-- Environment whose first `gradeWriting` call fails and whose later calls
succeed with score 7. -/
def envFail0 : Nat → GradeOutcome :=
  fun i => if i = 0 then .failure else .success ⟨7, "good", "better"⟩

/-- Environment whose every call succeeds with score 15. -/
def envOk15 : Nat → GradeOutcome := fun _ => .success ⟨15, "excellent", "better"⟩

/-- Empty answer set. -/
def answersNone : String → Option String := fun _ => none

/-- A multiple-choice question with correct answer `"paris"`, worth 5. -/
def qParis : Question :=
  ⟨"q1", .multiple_choice, "Capital of France?", some ["paris", "london"],
    some "paris", some "geography", none, 5⟩

/-- One-section paper holding `qParis`. -/
def paperParis : TestPaperData :=
  ⟨"t1", "Mock Test", none, none, [⟨"s1", "Vocabulary", "vocabulary", none, [qParis]⟩]⟩

/-- Answer set answering `qParis` with `" Paris "` (case and whitespace
changed). -/
def answersParisSpaced : String → Option String :=
  fun id => if id = "q1" then some " Paris " else none

/-- Answer set answering `qParis` with the exact string `"paris"`. -/
def answersParisExact : String → Option String :=
  fun id => if id = "q1" then some "paris" else none

/-- Two writing questions, each worth 10. -/
def qEssay1 : Question :=
  ⟨"w1", .writing, "Describe your hobby.", none, none, none, none, 10⟩

/-- Second writing question. -/
def qEssay2 : Question :=
  ⟨"w2", .writing, "Describe your school.", none, none, none, none, 10⟩

/-- One-section paper with the two writing questions. -/
def paperTwoEssays : TestPaperData :=
  ⟨"t2", "Essay Test", none, none, [⟨"sw", "Writing", "writing", none, [qEssay1, qEssay2]⟩]⟩

/-- Answer set answering both essays. -/
def answersTwoEssays : String → Option String :=
  fun id => if id = "w1" then some "essay one" else if id = "w2" then some "essay two" else none

/-- One-section paper with a single writing question worth 10. -/
def paperOneEssay : TestPaperData :=
  ⟨"t3", "Writing Test", none, none, [⟨"sw", "Writing", "writing", none, [qEssay1]⟩]⟩

/-- Answer set answering the single essay. -/
def answersOneEssay : String → Option String :=
  fun id => if id = "w1" then some "my essay text" else none

/-- A multiple-choice question whose `correctAnswer` is absent, worth 5. -/
def qNoKey : Question :=
  ⟨"q1", .multiple_choice, "Pick one.", some ["a", "b"], none, none, none, 5⟩

/-- One-section paper holding `qNoKey`. -/
def paperNoKey : TestPaperData :=
  ⟨"t4", "Broken Paper", none, none, [⟨"s1", "Vocabulary", "vocabulary", none, [qNoKey]⟩]⟩

/-- A grammar passage whose story holds placeholders 1 and 2 but whose only
blank has id 1, so placeholder 2 is an orphan.  The story string is
`"A {{1}} B {{2}}"` written with escaped braces. -/
def dataOrphan : GrammarPracticeData :=
  ⟨"Passage", "A \x7b\x7b1\x7d\x7d B \x7b\x7b2\x7d\x7d", [⟨1, "", "cats", "plural"⟩]⟩

/-- A paper with a non-empty listening script and no audio attached, plus one
objective and one writing question. -/
def paperListening : TestPaperData :=
  ⟨"t5", "Listening Test", some "Narrator: Passage one.", none,
    [⟨"s1", "Listening", "listening", none, [qParis]⟩,
     ⟨"sw", "Writing", "writing", none, [qEssay1]⟩]⟩

/-- A dashboard state with a configured textbook and no session data. -/
def dashboardState : AppState :=
  ⟨.Dashboard, some ⟨"PEP", "Grade 8", "Term 1"⟩, none, none⟩

/-- The `TestResult` the second variant produces for `paperParis` answered
exactly right. -/
def resultParis : TestResult :=
  ⟨"t1", 5, 5, [("s1", 5)], [], answersParisExact⟩

/-!
### Helper lemmas
-/

theorem isObjective_ne_writing {t : QuestionType} (h : isObjective t = true) :
    t ≠ .writing := by
  cases t <;> simp_all [isObjective]

theorem not_objective_is_writing {t : QuestionType} (h : ¬ isObjective t = true) :
    t = .writing := by
  cases t <;> simp_all [isObjective]

theorem gradeQ1_objective {env answers acc q} (h : isObjective q.type = true) :
    gradeQ1 env answers acc q =
      ⟨acc.total + objContrib answers q, acc.maxTotal + q.maxScore,
       acc.feedback, acc.calls⟩ := by
  cases hm : objectiveMatch1 (answers q.id) q.correctAnswer <;>
    simp [gradeQ1, h, hm, objContrib]

theorem gradeQ1_writing_skip {env answers acc q} (h : q.type = .writing)
    (ha : (answers q.id).getD "" = "") :
    gradeQ1 env answers acc q =
      ⟨acc.total, acc.maxTotal + q.maxScore, acc.feedback, acc.calls⟩ := by
  simp [gradeQ1, h, isObjective, ha]

theorem gradeQ1_writing_success {env answers acc q fb} (h : q.type = .writing)
    (ha : ¬ (answers q.id).getD "" = "")
    (he : env acc.calls.length = .success fb) :
    gradeQ1 env answers acc q =
      ⟨acc.total + fb.score, acc.maxTotal + q.maxScore,
       acc.feedback ++ [(q.id, fb)],
       acc.calls ++ [(q.id, (answers q.id).getD "")]⟩ := by
  simp [gradeQ1, h, isObjective, ha, he]

theorem gradeQ1_writing_failure {env answers acc q} (h : q.type = .writing)
    (ha : ¬ (answers q.id).getD "" = "")
    (he : env acc.calls.length = .failure) :
    gradeQ1 env answers acc q =
      ⟨acc.total, acc.maxTotal + q.maxScore, acc.feedback,
       acc.calls ++ [(q.id, (answers q.id).getD "")]⟩ := by
  simp [gradeQ1, h, isObjective, ha, he]

theorem gradeQ2_writing_success {env answers st ss q fb} (h : q.type = .writing)
    (he : env st.calls.length = .success fb) :
    gradeQ2 env answers st ss q =
      .ok (⟨st.total + fb.score, st.maxTotal + q.maxScore, st.sectionScores,
            st.feedback ++ [(q.id, fb)],
            st.calls ++ [(q.id, sentAnswer (answers q.id))]⟩, ss + fb.score) := by
  simp [gradeQ2, h, he]

theorem gradeQ2_writing_failure {env answers st ss q} (h : q.type = .writing)
    (he : env st.calls.length = .failure) :
    gradeQ2 env answers st ss q =
      .error ⟨st.total, st.maxTotal + q.maxScore, st.sectionScores, st.feedback,
              st.calls ++ [(q.id, sentAnswer (answers q.id))]⟩ := by
  simp [gradeQ2, h, he]

theorem gradeQ2_nonwriting_hit {env answers st ss q} (h : ¬ q.type = .writing)
    (hc : answers q.id = q.correctAnswer) :
    gradeQ2 env answers st ss q =
      .ok (⟨st.total + q.maxScore, st.maxTotal + q.maxScore, st.sectionScores,
            st.feedback, st.calls⟩, ss + q.maxScore) := by
  simp [gradeQ2, h, hc]

theorem gradeQ2_nonwriting_miss {env answers st ss q} (h : ¬ q.type = .writing)
    (hc : ¬ answers q.id = q.correctAnswer) :
    gradeQ2 env answers st ss q =
      .ok (⟨st.total, st.maxTotal + q.maxScore, st.sectionScores, st.feedback,
            st.calls⟩, ss) := by
  simp [gradeQ2, h]
  intro hcon
  exact absurd hcon hc

theorem foldl_gradeQ1 (env : Nat → GradeOutcome)
    (answers : String → Option String) :
    ∀ (qs : List Question) (acc : Grade1Result),
      qs.foldl (gradeQ1 env answers) acc =
        ⟨acc.total + objTotal answers qs
            + scoreSum env acc.calls.length (qs.filter (isAnsweredWriting answers)),
         acc.maxTotal + (qs.map (fun q => q.maxScore)).sum,
         acc.feedback
            ++ fbListFrom env acc.calls.length (qs.filter (isAnsweredWriting answers)),
         acc.calls ++ callsOf answers (qs.filter (isAnsweredWriting answers))⟩
  | [], acc => by
      simp [objTotal, scoreSum, fbListFrom, callsOf]
  | q :: qs, acc => by
      rw [List.foldl_cons]
      by_cases hobj : isObjective q.type = true
      · have hnw : q.type ≠ .writing := isObjective_ne_writing hobj
        have hfil : isAnsweredWriting answers q = false := by
          simp [isAnsweredWriting, hnw]
        rw [gradeQ1_objective hobj, foldl_gradeQ1 env answers qs]
        simp [List.filter_cons, hfil, objTotal] <;> first | trivial | omega
      · have hw : q.type = .writing := not_objective_is_writing hobj
        have hzero : objContrib answers q = 0 := by
          simp [objContrib, hobj]
        by_cases ha : (answers q.id).getD "" = ""
        · have hfil : isAnsweredWriting answers q = false := by
            simp [isAnsweredWriting, ha]
          rw [gradeQ1_writing_skip hw ha, foldl_gradeQ1 env answers qs]
          simp [List.filter_cons, hfil, objTotal, hzero] <;> first | trivial | omega
        · have hfil : isAnsweredWriting answers q = true := by
            simp [isAnsweredWriting, hw, ha]
          cases he : env acc.calls.length with
          | success fb =>
              rw [gradeQ1_writing_success hw ha he, foldl_gradeQ1 env answers qs]
              simp [List.filter_cons, hfil, objTotal, hzero, scoreSum, fbListFrom,
                callsOf, he, envScore, List.append_assoc] <;> first | trivial | omega
          | failure =>
              rw [gradeQ1_writing_failure hw ha he, foldl_gradeQ1 env answers qs]
              simp [List.filter_cons, hfil, objTotal, hzero, scoreSum, fbListFrom,
                callsOf, he, envScore, List.append_assoc] <;> first | trivial | omega

theorem gradeQ2_ok_maxTotal {env answers st ss q st' ss'}
    (h : gradeQ2 env answers st ss q = .ok (st', ss')) :
    st'.maxTotal = st.maxTotal + q.maxScore := by
  by_cases hw : q.type = .writing
  · cases he : env st.calls.length with
    | success fb =>
        rw [gradeQ2_writing_success hw he] at h
        simp only [Except.ok.injEq, Prod.mk.injEq] at h
        obtain ⟨h1, -⟩ := h
        subst h1
        rfl
    | failure =>
        rw [gradeQ2_writing_failure hw he] at h
        simp at h
  · by_cases hc : answers q.id = q.correctAnswer
    · rw [gradeQ2_nonwriting_hit hw hc] at h
      simp only [Except.ok.injEq, Prod.mk.injEq] at h
      obtain ⟨h1, -⟩ := h
      subst h1
      rfl
    · rw [gradeQ2_nonwriting_miss hw hc] at h
      simp only [Except.ok.injEq, Prod.mk.injEq] at h
      obtain ⟨h1, -⟩ := h
      subst h1
      rfl

theorem foldQ2_ok_maxTotal {env : Nat → GradeOutcome}
    {answers : String → Option String} :
    ∀ (qs : List Question) (st : Grade2State) (ss : Int) (st' : Grade2State)
      (ss' : Int),
      foldQ2 env answers st ss qs = .ok (st', ss') →
      st'.maxTotal = st.maxTotal + (qs.map (fun q => q.maxScore)).sum
  | [], st, ss, st', ss' => by
      intro h
      simp only [foldQ2, Except.ok.injEq, Prod.mk.injEq] at h
      obtain ⟨h1, -⟩ := h
      subst h1
      simp
  | q :: qs, st, ss, st', ss' => by
      intro h
      cases hg : gradeQ2 env answers st ss q with
      | ok p =>
          obtain ⟨st1, ss1⟩ := p
          simp only [foldQ2, hg] at h
          have hrec := foldQ2_ok_maxTotal qs st1 ss1 st' ss' h
          have hone := gradeQ2_ok_maxTotal hg
          rw [hrec, hone]
          simp
          ring
      | error e =>
          simp only [foldQ2, hg] at h
          simp at h

theorem foldSec2_ok_maxTotal {env : Nat → GradeOutcome}
    {answers : String → Option String} :
    ∀ (secs : List TestSection) (st st' : Grade2State),
      foldSec2 env answers st secs = .ok st' →
      st'.maxTotal =
        st.maxTotal
          + ((secs.map (fun s => (s.questions.map (fun q => q.maxScore)).sum)).sum)
  | [], st, st' => by
      intro h
      simp only [foldSec2, Except.ok.injEq] at h
      subst h
      simp
  | sec :: secs, st, st' => by
      intro h
      cases hg : foldQ2 env answers st 0 sec.questions with
      | ok p =>
          obtain ⟨st1, ss1⟩ := p
          simp only [foldSec2, hg] at h
          have hrec := foldSec2_ok_maxTotal secs _ st' h
          have hone := foldQ2_ok_maxTotal sec.questions st 0 st1 ss1 hg
          rw [hrec]
          simp only [List.map_cons, List.sum_cons]
          rw [hone]
          ring
      | error e =>
          simp only [foldSec2, hg] at h
          simp at h

theorem runGrade2_ok_maxTotal {paper answers env st'}
    (h : runGrade2 paper answers env = .ok st') :
    st'.maxTotal = sumMaxScores paper := by
  have := foldSec2_ok_maxTotal paper.sections ⟨0, 0, [], [], []⟩ st' h
  rw [this]
  simp [sumMaxScores, questionsOf, List.map_flatten, List.sum_flatten,
    List.map_map, Function.comp_def]

theorem gradeSubmit1_maxTotal (paper : TestPaperData)
    (answers : String → Option String) (env : Nat → GradeOutcome) :
    (gradeSubmit1 paper answers env).maxTotal = sumMaxScores paper := by
  rw [gradeSubmit1, foldl_gradeQ1]
  simp [sumMaxScores]

theorem objectiveMatch1_iff {ans ca : Option String} :
    objectiveMatch1 ans ca = true ↔
      ∃ c, ca = some c ∧ c ≠ "" ∧
        ∃ u, ans = some u ∧ normAns u = normAns c := by
  cases ca with
  | none => simp [objectiveMatch1]
  | some c =>
      cases ans with
      | none => simp [objectiveMatch1]
      | some u =>
          simp [objectiveMatch1]

theorem objectiveMatch1_congr {a1 a2 ca : Option String}
    (h : Option.map (fun s => normAns s) a1
          = Option.map (fun s => normAns s) a2) :
    objectiveMatch1 a1 ca = objectiveMatch1 a2 ca := by
  cases ca with
  | none => rfl
  | some c =>
      cases a1 with
      | none =>
          cases a2 with
          | none => rfl
          | some v => simp at h
      | some u =>
          cases a2 with
          | none => simp at h
          | some v =>
              simp only [Option.map_some'] at h
              simp only [Option.some.injEq] at h
              simp [objectiveMatch1, h]

theorem sentAnswer_empty {ans : Option String} (h : ans.getD "" = "") :
    sentAnswer ans = "No answer provided." := by
  cases ans with
  | none => rfl
  | some a =>
      simp only [Option.getD] at h
      simp [sentAnswer, h]

theorem fbListFrom_all_success (env : Nat → GradeOutcome) :
    ∀ (ws : List Question) (n : Nat), (∀ j, env (n + j) ≠ .failure) →
      (fbListFrom env n ws).map Prod.fst = ws.map (fun q => q.id)
  | [], n => by
      intro _
      rfl
  | q :: ws, n => by
      intro h
      cases he : env n with
      | success fb =>
          have hrec : ∀ j, env (n + 1 + j) ≠ .failure := by
            intro j
            have := h (j + 1)
            rwa [show n + (j + 1) = n + 1 + j by omega] at this
          simp only [fbListFrom, he, List.map_cons]
          rw [fbListFrom_all_success env ws (n + 1) hrec]
      | failure =>
          exact absurd (by simpa using he) (by simpa using h 0)

theorem fbListFrom_one_failure (env : Nat → GradeOutcome) :
    ∀ (ws : List Question) (n k : Nat),
      (∀ j, env (n + j) = .failure ↔ j = k) →
      (fbListFrom env n ws).map Prod.fst = (ws.map (fun q => q.id)).eraseIdx k
  | [], n, k => by
      intro _
      simp [fbListFrom]
  | q :: ws, n, k => by
      intro h
      cases k with
      | zero =>
          have he : env n = .failure := by simpa using (h 0).mpr rfl
          have hrec : ∀ j, env (n + 1 + j) ≠ .failure := by
            intro j hj
            have := (h (j + 1)).mp
              (by rwa [show n + (j + 1) = n + 1 + j by omega])
            omega
          simp only [fbListFrom, he, List.map_cons, List.eraseIdx_cons_zero]
          exact fbListFrom_all_success env ws (n + 1) hrec
      | succ m =>
          have hne : env n ≠ .failure := by
            intro hf
            have := (h 0).mp (by simpa using hf)
            omega
          cases he : env n with
          | failure => exact absurd he hne
          | success fb =>
              have hrec : ∀ j, env (n + 1 + j) = .failure ↔ j = m := by
                intro j
                have := h (j + 1)
                rw [show n + (j + 1) = n + 1 + j by omega] at this
                constructor
                · intro hf
                  have := this.mp hf
                  omega
                · intro hj
                  exact this.mpr (by omega)
              simp only [fbListFrom, he, List.map_cons, List.eraseIdx_cons_succ]
              rw [fbListFrom_one_failure env ws (n + 1) m hrec]

theorem filter_answered_eq_writingOnly {paper : TestPaperData}
    {answers : String → Option String}
    (h : ∀ q ∈ questionsOf paper, q.type = .writing →
          (answers q.id).getD "" ≠ "") :
    (questionsOf paper).filter (isAnsweredWriting answers) = writingOnly paper := by
  unfold writingOnly
  apply List.filter_congr
  intro q hq
  by_cases hw : q.type = .writing
  · simp [isAnsweredWriting, hw, h q hq hw]
  · simp [isAnsweredWriting, hw]

/-!
### Claim theorems
-/

/-- C1 (amended).  In the first `handleSubmit`, an objective question
(multiple_choice, boolean, fill_in_blank) is graded by comparing the user's
answer to `correctAnswer` under case-insensitive, whitespace-trimmed
equality whenever `correctAnswer` is a non-empty string — exactly `maxScore`
on a match and exactly 0 (and no feedback or call) otherwise — and changing
the case or surrounding whitespace of an answer never changes the grading
outcome.  In the second `handleSubmit`, however, the comparison is the raw
`===` on the untrimmed, case-sensitive strings. -/
theorem c1_objective_grading
    (env : Nat → GradeOutcome) (a1 a2 : String → Option String)
    (acc : Grade1Result) (st : Grade2State) (ss : Int) (q : Question)
    (hobj : isObjective q.type = true)
    (heq : Option.map (fun s => normAns s) (a1 q.id)
            = Option.map (fun s => normAns s) (a2 q.id)) :
    (∀ c u, q.correctAnswer = some c → c ≠ "" → a1 q.id = some u →
        normAns u = normAns c →
        gradeQ1 env a1 acc q =
          ⟨acc.total + q.maxScore, acc.maxTotal + q.maxScore,
           acc.feedback, acc.calls⟩)
    ∧ ((¬ ∃ c, q.correctAnswer = some c ∧ c ≠ "" ∧
          ∃ u, a1 q.id = some u ∧ normAns u = normAns c) →
        gradeQ1 env a1 acc q =
          ⟨acc.total, acc.maxTotal + q.maxScore, acc.feedback, acc.calls⟩)
    ∧ gradeQ1 env a1 acc q = gradeQ1 env a2 acc q
    ∧ (a1 q.id = q.correctAnswer →
        gradeQ2 env a1 st ss q =
          .ok (⟨st.total + q.maxScore, st.maxTotal + q.maxScore,
                st.sectionScores, st.feedback, st.calls⟩, ss + q.maxScore))
    ∧ (¬ a1 q.id = q.correctAnswer →
        gradeQ2 env a1 st ss q =
          .ok (⟨st.total, st.maxTotal + q.maxScore, st.sectionScores,
                st.feedback, st.calls⟩, ss)) := by
  have hnw : q.type ≠ .writing := isObjective_ne_writing hobj
  refine ⟨?_, ?_, ?_, ?_, ?_⟩
  · intro c u hc hcne hu hlow
    have hm : objectiveMatch1 (a1 q.id) q.correctAnswer = true :=
      objectiveMatch1_iff.mpr ⟨c, hc, hcne, u, hu, hlow⟩
    rw [gradeQ1_objective hobj]
    simp [objContrib, hobj, hm]
  · intro hno
    have hm : objectiveMatch1 (a1 q.id) q.correctAnswer = false := by
      cases hmm : objectiveMatch1 (a1 q.id) q.correctAnswer
      · rfl
      · exact absurd (objectiveMatch1_iff.mp hmm) hno
    rw [gradeQ1_objective hobj]
    simp [objContrib, hobj, hm]
  · rw [gradeQ1_objective hobj, gradeQ1_objective hobj, objContrib, objContrib,
      objectiveMatch1_congr heq]
  · intro hc
    exact gradeQ2_nonwriting_hit hnw hc
  · intro hc
    exact gradeQ2_nonwriting_miss hnw hc

/-- C1 witness: the first variant grades `" Paris "` against correct answer
`"paris"` as a full-score match, and changing the answer to the exact
`"paris"` does not change the first variant's grading. -/
theorem c1_objective_grading_witness :
    gradeQ1 envOk7 answersParisSpaced ⟨0, 0, [], []⟩ qParis = ⟨0 + 5, 0 + 5, [], []⟩
    ∧ gradeQ1 envOk7 answersParisSpaced ⟨0, 0, [], []⟩ qParis
        = gradeQ1 envOk7 answersParisExact ⟨0, 0, [], []⟩ qParis :=
  have h := c1_objective_grading envOk7 answersParisSpaced answersParisExact
    ⟨0, 0, [], []⟩ ⟨0, 0, [], [], []⟩ 0 qParis (by decide) (by decide)
  ⟨h.1 "paris" " Paris " rfl (by decide) (by decide) (by decide), h.2.2.1⟩

/-- C1 counterexample: the second variant's pipeline awards 0 to the answer
`" Paris "` and 5 to the answer `"paris"` against correct answer `"paris"`,
so case and whitespace changes do change the awarded score, refuting the
claim for the second `handleSubmit`. -/
theorem c1_objective_grading_cex :
    (gradeSubmit2 paperParis answersParisSpaced envOk7).map (fun r => r.totalScore)
        = .ok 0
    ∧ (gradeSubmit2 paperParis answersParisExact envOk7).map (fun r => r.totalScore)
        = .ok 5 := by
  constructor <;> rfl

/-- C10 (amended).  In the first `handleSubmit` an objective question with an
absent `correctAnswer` always scores 0.  In the second `handleSubmit` the raw
`===` comparison makes an unanswered objective question with an absent
`correctAnswer` score `maxScore` (`undefined === undefined`), while any
present answer scores 0. -/
theorem c10_missing_correct_answer
    (env : Nat → GradeOutcome) (answers : String → Option String)
    (acc : Grade1Result) (st : Grade2State) (ss : Int) (q : Question)
    (hobj : isObjective q.type = true) (hca : q.correctAnswer = none) :
    gradeQ1 env answers acc q =
      ⟨acc.total, acc.maxTotal + q.maxScore, acc.feedback, acc.calls⟩
    ∧ (answers q.id = none →
        gradeQ2 env answers st ss q =
          .ok (⟨st.total + q.maxScore, st.maxTotal + q.maxScore,
                st.sectionScores, st.feedback, st.calls⟩, ss + q.maxScore))
    ∧ (∀ u, answers q.id = some u →
        gradeQ2 env answers st ss q =
          .ok (⟨st.total, st.maxTotal + q.maxScore, st.sectionScores,
                st.feedback, st.calls⟩, ss)) := by
  have hnw : q.type ≠ .writing := isObjective_ne_writing hobj
  refine ⟨?_, ?_, ?_⟩
  · have hm : objectiveMatch1 (answers q.id) q.correctAnswer = false := by
      rw [hca]; rfl
    rw [gradeQ1_objective hobj]
    simp [objContrib, hobj, hm]
  · intro ha
    exact gradeQ2_nonwriting_hit hnw (by rw [ha, hca])
  · intro u ha
    exact gradeQ2_nonwriting_miss hnw (by rw [ha, hca]; simp)

/-- C10 witness: for the concrete keyless question, the first variant scores
0 both for an absent and for a present answer. -/
theorem c10_missing_correct_answer_witness :
    gradeQ1 envOk7 answersNone ⟨0, 0, [], []⟩ qNoKey = ⟨0, 0 + 5, [], []⟩
    ∧ gradeQ2 envOk7 answersParisExact ⟨0, 0, [], [], []⟩ 0 qNoKey
        = .ok (⟨0, 0 + 5, [], [], []⟩, 0) :=
  have h := c10_missing_correct_answer envOk7 answersNone
    ⟨0, 0, [], []⟩ ⟨0, 0, [], [], []⟩ 0 qNoKey (by decide) rfl
  have h2 := c10_missing_correct_answer envOk7 answersParisExact
    ⟨0, 0, [], []⟩ ⟨0, 0, [], [], []⟩ 0 qNoKey (by decide) rfl
  ⟨h.1, h2.2.2 "paris" (by decide)⟩

/-- C10 counterexample: in the second variant, the unanswered question with
an absent `correctAnswer` scores its full `maxScore` 5, refuting the claim
that it never scores `maxScore`. -/
theorem c10_missing_correct_answer_cex :
    (gradeSubmit2 paperNoKey answersNone envOk7).map (fun r => r.totalScore)
        = .ok 5
    ∧ qNoKey.correctAnswer = none ∧ answersNone qNoKey.id = none
    ∧ qNoKey.maxScore = 5 := by
  refine ⟨rfl, rfl, rfl, rfl⟩

/-- C3 (amended).  In the first `handleSubmit`, a writing question with no
non-empty answer is awarded 0, gets no feedback entry and triggers no
`gradeWriting` call.  In the second `handleSubmit`, such a question still
triggers a `gradeWriting` call carrying the placeholder text
`"No answer provided."`; on success the returned feedback is recorded and
its score added, and on failure the whole submission aborts. -/
theorem c3_unanswered_writing
    (env : Nat → GradeOutcome) (answers : String → Option String)
    (acc : Grade1Result) (st : Grade2State) (ss : Int) (q : Question)
    (hw : q.type = .writing) (ha : (answers q.id).getD "" = "") :
    gradeQ1 env answers acc q =
      ⟨acc.total, acc.maxTotal + q.maxScore, acc.feedback, acc.calls⟩
    ∧ (∀ fb, env st.calls.length = .success fb →
        gradeQ2 env answers st ss q =
          .ok (⟨st.total + fb.score, st.maxTotal + q.maxScore, st.sectionScores,
                st.feedback ++ [(q.id, fb)],
                st.calls ++ [(q.id, "No answer provided.")]⟩, ss + fb.score))
    ∧ (env st.calls.length = .failure →
        gradeQ2 env answers st ss q =
          .error ⟨st.total, st.maxTotal + q.maxScore, st.sectionScores,
                  st.feedback, st.calls ++ [(q.id, "No answer provided.")]⟩) := by
  refine ⟨gradeQ1_writing_skip hw ha, ?_, ?_⟩
  · intro fb he
    rw [gradeQ2_writing_success hw he, sentAnswer_empty ha]
  · intro he
    rw [gradeQ2_writing_failure hw he, sentAnswer_empty ha]

/-- C3 witness: grading the unanswered single-essay paper in the first
variant awards 0, records no feedback and issues no call. -/
theorem c3_unanswered_writing_witness :
    gradeQ1 envOk7 answersNone ⟨0, 0, [], []⟩ qEssay1 = ⟨0, 0 + 10, [], []⟩ :=
  (c3_unanswered_writing envOk7 answersNone ⟨0, 0, [], []⟩ ⟨0, 0, [], [], []⟩ 0
    qEssay1 rfl rfl).1

/-- C3 counterexample: in the second variant the unanswered writing question
still produces a `gradeWriting` call (with `"No answer provided."`), a
recorded feedback entry and a score of 7, refuting the claim that no call is
issued and 0 is awarded. -/
theorem c3_unanswered_writing_cex :
    runGrade2 paperOneEssay answersNone envOk7 =
      .ok ⟨7, 10, [("sw", 7)], [("w1", ⟨7, "good", "better"⟩)],
           [("w1", "No answer provided.")]⟩ := by
  rfl

/-- C4 (confirmed).  In both `handleSubmit` variants a successfully graded
writing question adds exactly the grader's returned score to the total,
without clamping to `maxScore`; concretely, a grader response of 15 on a
10-point writing question makes the total 15 exceed the paper's summed
`maxScore` 10. -/
theorem c4_unclamped_writing_score
    (env : Nat → GradeOutcome) (answers : String → Option String)
    (acc : Grade1Result) (st : Grade2State) (ss : Int) (q : Question)
    (fb fb2 : WritingFeedback)
    (hw : q.type = .writing) (ha : ¬ (answers q.id).getD "" = "")
    (he1 : env acc.calls.length = .success fb)
    (he2 : env st.calls.length = .success fb2) :
    (gradeQ1 env answers acc q).total = acc.total + fb.score
    ∧ (∃ st' ss', gradeQ2 env answers st ss q = .ok (st', ss')
        ∧ st'.total = st.total + fb2.score)
    ∧ (gradeSubmit1 paperOneEssay answersOneEssay envOk15).total = 15
    ∧ sumMaxScores paperOneEssay = 10
    ∧ (gradeSubmit1 paperOneEssay answersOneEssay envOk15).total
        > sumMaxScores paperOneEssay := by
  refine ⟨?_, ⟨_, _, gradeQ2_writing_success hw he2, rfl⟩, by decide, by decide,
    by decide⟩
  rw [gradeQ1_writing_success hw ha he1]

/-- C4 witness: the concrete answered essay graded successfully with score 7
adds exactly 7 in both variants. -/
theorem c4_unclamped_writing_score_witness :
    (gradeQ1 envOk7 answersOneEssay ⟨0, 0, [], []⟩ qEssay1).total = 0 + 7
    ∧ ∃ st' ss', gradeQ2 envOk7 answersOneEssay ⟨0, 0, [], [], []⟩ 0 qEssay1
        = .ok (st', ss') ∧ st'.total = 0 + 7 :=
  have h := c4_unclamped_writing_score envOk7 answersOneEssay ⟨0, 0, [], []⟩
    ⟨0, 0, [], [], []⟩ 0 qEssay1 ⟨7, "good", "better"⟩ ⟨7, "good", "better"⟩
    rfl (by decide) rfl rfl
  ⟨h.1, h.2.1⟩

/-- C8 (confirmed).  A failing session-critical generation call leaves the
application state completely unchanged in both handlers: the mode (Dashboard)
is kept and no partial `PracticeSession` or `TestPaper` is stored. -/
theorem c8_failure_keeps_state (st : AppState) (speechRes : Except Unit String) :
    handleVocabStart st (.error ()) = st
    ∧ handleTestStart st (.error ()) speechRes = st := by
  cases hc : st.config <;>
    exact ⟨by simp [handleVocabStart, hc], by simp [handleTestStart, hc]⟩

/-- C5 (confirmed).  In the first variant `maxTotalScore` always equals the
sum of every question's `maxScore`; in the second variant every produced
`TestResult` satisfies the same equation (when an essay call throws, no
result is produced at all). -/
theorem c5_max_total_score (paper : TestPaperData)
    (answers : String → Option String) (env : Nat → GradeOutcome) :
    (gradeSubmit1 paper answers env).maxTotal = sumMaxScores paper
    ∧ ∀ r, gradeSubmit2 paper answers env = .ok r →
        r.maxTotalScore = sumMaxScores paper := by
  refine ⟨gradeSubmit1_maxTotal paper answers env, ?_⟩
  intro r hr
  cases hg : runGrade2 paper answers env with
  | ok stf =>
      rw [gradeSubmit2, hg] at hr
      simp only [Except.map, Except.ok.injEq] at hr
      rw [← hr]
      exact runGrade2_ok_maxTotal hg
  | error e =>
      rw [gradeSubmit2, hg] at hr
      simp [Except.map] at hr

/-- C5 witness: both variants report `maxTotalScore = 5` on the one-question
paper, the second through its concrete produced `TestResult`. -/
theorem c5_max_total_score_witness :
    (gradeSubmit1 paperParis answersParisExact envOk7).maxTotal
        = sumMaxScores paperParis
    ∧ resultParis.maxTotalScore = sumMaxScores paperParis :=
  have h := c5_max_total_score paperParis answersParisExact envOk7
  ⟨h.1, h.2 resultParis rfl⟩

/-- C7 (confirmed).  When the test paper was generated with a non-empty
listening script and the `generateSpeech` call fails, the session still
moves to the in-progress test state carrying the very same paper (audio
still absent), and submission-time grading over that paper is unaffected
(its `maxTotalScore` covers every question). -/
theorem c7_speech_failure_nonfatal (st : AppState) (cfg : TextbookConfig)
    (paper : TestPaperData) (s : String)
    (hc : st.config = some cfg) (hs : paper.listeningScript = some s)
    (hne : s ≠ "") (hna : paper.listeningAudioBase64 = none) :
    (handleTestStart st (.ok paper) (.error ())).mode = .TestPaper
    ∧ (handleTestStart st (.ok paper) (.error ())).testPaper = some paper
    ∧ paper.listeningAudioBase64 = none
    ∧ ∀ answers env,
        (gradeSubmit1 paper answers env).maxTotal = sumMaxScores paper := by
  have ht : truthyStr paper.listeningScript = true := by
    simp [truthyStr, hs, hne]
  refine ⟨?_, ?_, hna, fun answers env => gradeSubmit1_maxTotal paper answers env⟩
  · simp [handleTestStart, hc, ht]
  · simp [handleTestStart, hc, ht]

/-- C7 witness: the listening paper with a failed speech call still reaches
the in-progress test state, audio absent, and grades to a full
`maxTotalScore` of 15. -/
theorem c7_speech_failure_nonfatal_witness :
    (handleTestStart dashboardState (.ok paperListening) (.error ())).mode
        = .TestPaper
    ∧ (handleTestStart dashboardState (.ok paperListening) (.error ())).testPaper
        = some paperListening
    ∧ (gradeSubmit1 paperListening answersNone envOk7).maxTotal
        = sumMaxScores paperListening :=
  have h := c7_speech_failure_nonfatal dashboardState ⟨"PEP", "Grade 8", "Term 1"⟩
    paperListening "Narrator: Passage one." rfl rfl (by decide) rfl
  ⟨h.1, h.2.1, h.2.2.2 answersNone envOk7⟩

/-- C2 (amended).  In the first `handleSubmit`, when every writing question
carries a non-empty answer and exactly the `k`-th of the N essay-grading
calls fails, grading still visits every writing question (the call log
covers all N, in document order), the feedback record holds entries for
exactly the other N−1 questions, the total is the objective total plus the
scores of the successful calls with the failed call contributing 0, and the
submission completes (the fold is total).  In the second `handleSubmit` the
failing call instead aborts the whole submission (see the counterexample). -/
theorem c2_single_failure_containment
    (paper : TestPaperData) (answers : String → Option String)
    (env : Nat → GradeOutcome) (k : Nat)
    (hall : ∀ q ∈ questionsOf paper, q.type = .writing →
        (answers q.id).getD "" ≠ "")
    (henv : ∀ i, env i = .failure ↔ i = k)
    (hk : k < (writingOnly paper).length) :
    (gradeSubmit1 paper answers env).calls
        = callsOf answers (writingOnly paper)
    ∧ (gradeSubmit1 paper answers env).feedback.map Prod.fst
        = ((writingOnly paper).map (fun q => q.id)).eraseIdx k
    ∧ (gradeSubmit1 paper answers env).total
        = objTotal answers (questionsOf paper)
            + scoreSum env 0 (writingOnly paper)
    ∧ envScore env k = 0 := by
  have hfil := filter_answered_eq_writingOnly hall
  have henv0 : ∀ j, env (0 + j) = .failure ↔ j = k := by
    intro j
    simpa using henv j
  refine ⟨?_, ?_, ?_, ?_⟩
  · rw [gradeSubmit1, foldl_gradeQ1, hfil]
    simp
  · rw [gradeSubmit1, foldl_gradeQ1, hfil]
    simp only [List.nil_append, List.length_nil]
    exact fbListFrom_one_failure env (writingOnly paper) 0 k henv0
  · rw [gradeSubmit1, foldl_gradeQ1, hfil]
    simp
  · simp [envScore, (henv k).mpr rfl]

/-- C2 witness: on the two-essay paper with both essays answered and the
first call failing, the first variant still calls the grader for both
questions and records feedback for exactly the second. -/
theorem c2_single_failure_containment_witness :
    (gradeSubmit1 paperTwoEssays answersTwoEssays envFail0).calls
        = callsOf answersTwoEssays (writingOnly paperTwoEssays)
    ∧ (gradeSubmit1 paperTwoEssays answersTwoEssays envFail0).feedback.map
        Prod.fst
        = ((writingOnly paperTwoEssays).map (fun q => q.id)).eraseIdx 0 :=
  have h := c2_single_failure_containment paperTwoEssays answersTwoEssays
    envFail0 0 (by decide)
    (by
      intro i
      by_cases hi : i = 0 <;> simp [envFail0, hi])
    (by decide)
  ⟨h.1, h.2.1⟩

/-- C2 counterexample: in the second variant the same single failure throws
out of `handleSubmit`: the produced value is the exception (no `TestResult`),
the second essay was never graded (the call log stops at `w1`), so the
submission does not complete and no N−1 feedback entries exist. -/
theorem c2_single_failure_containment_cex :
    gradeSubmit2 paperTwoEssays answersTwoEssays envFail0 =
      .error ⟨0, 10, [], [], [("w1", "essay one")]⟩ := by
  rfl

/-- C9 (amended).  Rendering never crashes in either variant: a placeholder
segment whose parsed id has a matching blank renders as an input in both
variants; a placeholder segment with no matching blank renders as the red
`[Error]` marker in the first variant but as `null` — nothing at all — in
the second.  Concretely, the first variant renders the orphan passage with
an explicit error marker in place of the orphan placeholder. -/
theorem c9_orphan_placeholder
    (blanks : List GrammarBlank) (seg pre ds post : List Char)
    (hm : findMatchAux seg = some (pre, ds, post)) :
    ((blanks.find? (fun b => b.id == digitsToNat ds) = none →
        renderSeg1 blanks seg = .errorMarker ∧ renderSeg2 blanks seg = none)
    ∧ (∀ bl, blanks.find? (fun b => b.id == digitsToNat ds) = some bl →
        renderSeg1 blanks seg = .inputBlank (digitsToNat ds)
        ∧ renderSeg2 blanks seg = some (.inputBlank (digitsToNat ds))))
    ∧ renderGrammar1 dataOrphan =
        [.text "A ", .inputBlank 1, .text " B ", .errorMarker, .text ""] := by
  refine ⟨⟨?_, ?_⟩, by rfl⟩
  · intro hf
    constructor <;> simp [renderSeg1, renderSeg2, hm, hf]
  · intro bl hf
    constructor <;> simp [renderSeg1, renderSeg2, hm, hf]

/-- C9 witness: in the orphan passage, the placeholder-2 segment has no
matching blank and renders as the error marker in the first variant and as
nothing in the second; the placeholder-1 segment still renders as an input. -/
theorem c9_orphan_placeholder_witness :
    (renderSeg1 dataOrphan.blanks [lbrace, lbrace, '2', rbrace, rbrace]
        = .errorMarker
      ∧ renderSeg2 dataOrphan.blanks [lbrace, lbrace, '2', rbrace, rbrace]
        = none)
    ∧ (renderSeg1 dataOrphan.blanks [lbrace, lbrace, '1', rbrace, rbrace]
        = .inputBlank 1
      ∧ renderSeg2 dataOrphan.blanks [lbrace, lbrace, '1', rbrace, rbrace]
        = some (.inputBlank 1)) :=
  have h2 := c9_orphan_placeholder dataOrphan.blanks
    [lbrace, lbrace, '2', rbrace, rbrace] [] ['2'] [] (by decide)
  have h1 := c9_orphan_placeholder dataOrphan.blanks
    [lbrace, lbrace, '1', rbrace, rbrace] [] ['1'] [] (by decide)
  ⟨h2.1.1 (by decide), h1.1.2 ⟨1, "", "cats", "plural"⟩ (by decide)⟩

/-- C9 counterexample: the second variant renders the orphan passage with no
error marker at all — the orphan placeholder is silently dropped — refuting
the claim that the orphan is surfaced as an error marker. -/
theorem c9_orphan_placeholder_cex :
    renderGrammar2 dataOrphan =
      [.text "A ", .inputBlank 1, .text " B ", .text ""]
    ∧ RenderPiece.errorMarker ∉ renderGrammar2 dataOrphan := by
  refine ⟨by rfl, by decide⟩

theorem b64index_lt {c : Char} {s : Nat} (h : b64index c = some s) : s < 64 := by
  unfold b64index at h
  split_ifs at h <;> simp_all <;> omega

theorem b64index_b64char : ∀ n < 64, b64index (b64char n) = some n := by
  decide

theorem b64char_ne_pad : ∀ n < 64, b64char n ≠ '=' := by
  decide

theorem pcm16le_lt : ∀ (samples : List Int), ∀ b ∈ pcm16le samples, b < 256
  | [] => by simp [pcm16le]
  | s :: rest => by
      intro b hb
      simp only [pcm16le, List.mem_cons] at hb
      have hlt : (s % 65536).toNat < 65536 := by omega
      rcases hb with hb | hb | hb
      · omega
      · omega
      · exact pcm16le_lt rest b hb

theorem atob_btoa : ∀ (bs : List Nat), (∀ x ∈ bs, x < 256) →
    atobM (btoaM bs) = some bs
  | [], _ => rfl
  | [a], h => by
      have ha : a < 256 := h a (by simp)
      have h1 := b64index_b64char (a / 4) (by omega)
      have h2 := b64index_b64char (a % 4 * 16) (by omega)
      simp only [btoaM, atobM, h1, h2, List.isEmpty_nil, true_and, and_self,
        if_true, Option.some.injEq, List.cons.injEq, and_true]
      omega
  | [a, b], h => by
      have ha : a < 256 := h a (by simp)
      have hb : b < 256 := h b (by simp)
      have h1 := b64index_b64char (a / 4) (by omega)
      have h2 := b64index_b64char (a % 4 * 16 + b / 16) (by omega)
      have h3 := b64index_b64char (b % 16 * 4) (by omega)
      have hne3 := b64char_ne_pad (b % 16 * 4) (by omega)
      simp only [btoaM, atobM, h1, h2, h3, List.isEmpty_nil, hne3, true_and,
        false_and, and_false, if_false, and_true, if_true, Option.some.injEq,
        List.cons.injEq, and_self]
      omega
  | a :: b :: c :: rest, h => by
      have ha : a < 256 := h a (by simp)
      have hb : b < 256 := h b (by simp)
      have hc : c < 256 := h c (by simp)
      have h1 := b64index_b64char (a / 4) (by omega)
      have h2 := b64index_b64char (a % 4 * 16 + b / 16) (by omega)
      have h3 := b64index_b64char (b % 16 * 4 + c / 64) (by omega)
      have h4 := b64index_b64char (c % 64) (by omega)
      have hne3 := b64char_ne_pad (b % 16 * 4 + c / 64) (by omega)
      have hne4 := b64char_ne_pad (c % 64) (by omega)
      have hrec := atob_btoa rest (fun x hx => h x (by simp [hx]))
      simp only [btoaM, atobM, h1, h2, h3, h4, hrec, hne3, hne4, false_and,
        and_false, if_false, Option.some.injEq, List.cons.injEq]
      refine ⟨by omega, by omega, by omega, trivial⟩

theorem atobM_lt : ∀ (cs : List Char) (bs : List Nat),
    atobM cs = some bs → ∀ b ∈ bs, b < 256
  | [], bs => by
      intro h b hb
      simp only [atobM, Option.some.injEq] at h
      subst h
      simp at hb
  | [c1], bs => by
      intro h
      simp [atobM] at h
  | [c1, c2], bs => by
      intro h
      simp [atobM] at h
  | [c1, c2, c3], bs => by
      intro h
      simp [atobM] at h
  | c1 :: c2 :: c3 :: c4 :: rest, bs => by
      intro h b hb
      simp only [atobM] at h
      cases hb1 : b64index c1 with
      | none => rw [hb1] at h; simp at h
      | some s1 =>
          cases hb2 : b64index c2 with
          | none => rw [hb1, hb2] at h; simp at h
          | some s2 =>
              rw [hb1, hb2] at h
              simp only at h
              have hs1 := b64index_lt hb1
              have hs2 := b64index_lt hb2
              split_ifs at h with hp1 hp2
              · simp only [Option.some.injEq] at h
                subst h
                simp at hb
                omega
              · cases hb3 : b64index c3 with
                | none => rw [hb3] at h; simp at h
                | some s3 =>
                    rw [hb3] at h
                    simp only [Option.some.injEq] at h
                    have hs3 := b64index_lt hb3
                    subst h
                    simp at hb
                    rcases hb with hb | hb <;> omega
              · cases hb3 : b64index c3 with
                | none => rw [hb3] at h; simp at h
                | some s3 =>
                    rw [hb3] at h
                    simp only at h
                    cases hb4 : b64index c4 with
                    | none => rw [hb4] at h; simp at h
                    | some s4 =>
                        cases hrest : atobM rest with
                        | none => rw [hb4, hrest] at h; simp at h
                        | some tail =>
                            rw [hb4, hrest] at h
                            simp only [Option.some.injEq] at h
                            have hs3 := b64index_lt hb3
                            have hs4 := b64index_lt hb4
                            subst h
                            simp only [List.mem_cons] at hb
                            rcases hb with hb | hb | hb | hb
                            · omega
                            · omega
                            · omega
                            · exact atobM_lt rest tail hrest b hb

theorem decodePcm_pcm16le : ∀ (samples : List Int),
    (∀ s ∈ samples, -32768 ≤ s ∧ s < 32768) →
    decodePcm (pcm16le samples)
      = samples.map (fun (s : Int) => (s : ℚ) / 32768)
  | [], _ => rfl
  | s :: rest, h => by
      have hs := h s (by simp)
      have hrec := decodePcm_pcm16le rest (fun x hx => h x (by simp [hx]))
      have hval : toInt16 ((s % 65536).toNat % 256) ((s % 65536).toNat / 256)
          = s := by
        unfold toInt16
        split_ifs <;> omega
      simp only [pcm16le, decodePcm, List.map_cons, hrec, hval]

theorem decodePcm_length : ∀ (bytes : List Nat), bytes.length % 2 = 0 →
    (decodePcm bytes).length = bytes.length / 2
  | [], _ => rfl
  | [b], h => by simp at h
  | lo :: hi :: rest, h => by
      simp only [decodePcm, List.length_cons]
      rw [decodePcm_length rest
        (by simp only [List.length_cons] at h; omega)]
      omega

theorem decodePcm_get : ∀ (bytes : List Nat) (i : Nat),
    2 * i + 1 < bytes.length →
    (decodePcm bytes).get? i =
      some ((toInt16 (bytes.getD (2 * i) 0) (bytes.getD (2 * i + 1) 0) : ℚ)
              / 32768)
  | [], i, h => by simp at h
  | [b], i, h => by
      simp only [List.length_singleton] at h
      omega
  | lo :: hi :: rest, 0, h => by
      simp [decodePcm]
  | lo :: hi :: rest, i + 1, h => by
      have hrec := decodePcm_get rest i
        (by simp only [List.length_cons] at h; omega)
      simp only [decodePcm, List.get?_cons_succ]
      rw [show 2 * (i + 1) = 2 * i + 1 + 1 by omega]
      simp only [List.getD_cons_succ]
      exact hrec

theorem decodePcm_bounds : ∀ (bytes : List Nat), (∀ b ∈ bytes, b < 256) →
    ∀ x ∈ decodePcm bytes, -1 ≤ x ∧ x < 1
  | [], _ => by simp [decodePcm]
  | [b], _ => by simp [decodePcm]
  | lo :: hi :: rest, h => by
      intro x hx
      simp only [decodePcm, List.mem_cons] at hx
      rcases hx with hx | hx
      · subst hx
        have hlo : lo < 256 := h lo (by simp)
        have hhi : hi < 256 := h hi (by simp)
        have hrange : -32768 ≤ toInt16 lo hi ∧ toInt16 lo hi < 32768 := by
          unfold toInt16
          split_ifs <;> constructor <;> omega
        constructor
        · rw [le_div_iff (by norm_num : (0 : ℚ) < 32768)]
          have : (-32768 : ℚ) ≤ (toInt16 lo hi : ℚ) := by
            exact_mod_cast hrange.1
          linarith
        · rw [div_lt_one (by norm_num : (0 : ℚ) < 32768)]
          exact_mod_cast hrange.2
      · exact decodePcm_bounds rest (fun b hb => h b (by simp [hb])) x hx

/-- C6 (confirmed).  For a base64 payload decoding to an even-length byte
sequence, `playAudio`'s decoder yields the 24000 Hz mono buffer with exactly
one sample per consecutive 2-byte pair, each sample the little-endian signed
16-bit value of the pair divided by 32768 and lying in [-1, 1); and encoding
any sequence of signed 16-bit samples to little-endian bytes and base64,
then decoding, reproduces each original sample divided by 32768 and
preserves the sample count. -/
theorem c6_audio_decode
    (payload : List Char) (bytes : List Nat) (samples : List Int)
    (hdec : atobM payload = some bytes)
    (heven : bytes.length % 2 = 0)
    (hrange : ∀ s ∈ samples, -32768 ≤ s ∧ s < 32768) :
    playDecode bytes = some ⟨decodePcm bytes, 24000, 1⟩
    ∧ (decodePcm bytes).length = bytes.length / 2
    ∧ (∀ i, 2 * i + 1 < bytes.length →
        (decodePcm bytes).get? i =
          some ((toInt16 (bytes.getD (2 * i) 0) (bytes.getD (2 * i + 1) 0) : ℚ)
                  / 32768))
    ∧ (∀ x ∈ decodePcm bytes, -1 ≤ x ∧ x < 1)
    ∧ atobM (btoaM (pcm16le samples)) = some (pcm16le samples)
    ∧ decodePcm (pcm16le samples)
        = samples.map (fun (s : Int) => (s : ℚ) / 32768)
    ∧ (decodePcm (pcm16le samples)).length = samples.length := by
  refine ⟨by simp [playDecode, heven], decodePcm_length bytes heven,
    fun i hi => decodePcm_get bytes i hi,
    decodePcm_bounds bytes (atobM_lt payload bytes hdec),
    atob_btoa (pcm16le samples) (pcm16le_lt samples),
    decodePcm_pcm16le samples hrange, ?_⟩
  rw [decodePcm_pcm16le samples hrange]
  simp

/-- C6 witness: the payload `"AQAAgA=="` decodes to bytes `[1, 0, 0, 128]`,
which play as two samples at 24 kHz mono, and the samples `[1, -32768]`
round-trip through the encode–decode pipeline. -/
theorem c6_audio_decode_witness :
    playDecode [1, 0, 0, 128] = some ⟨decodePcm [1, 0, 0, 128], 24000, 1⟩
    ∧ atobM (btoaM (pcm16le [1, -32768])) = some (pcm16le [1, -32768])
    ∧ decodePcm (pcm16le [1, -32768])
        = [(1 : Int), -32768].map (fun (s : Int) => (s : ℚ) / 32768) :=
  have h := c6_audio_decode ("AQAAgA==".data) [1, 0, 0, 128] [1, -32768]
    (by decide) (by decide) (by decide)
  ⟨h.1, h.2.2.2.2.1, h.2.2.2.2.2.1⟩

end EL
